import Mathlib

/-!
Shallow embedding of the TrustContract Soroban smart contract
(`src/src/lib.rs` of PinoyQ8/pinoyq8.github.io): Legacy Vault deadman
switch, Security Circle quorum voting (medical emergency and panic
freeze), and the Merchant trust-score ledger.

Modelling conventions:
* `Address` is `Nat`; `Symbol`/`String` become Lean `String`.
* The persistent key/value store becomes the `Storage` record, one
  partial map per `DataKey` constructor.
* Every public contract function becomes a pure function
  `Env → args → Storage → Except String Storage`; returning
  `.error msg` models a Rust `panic!`/`expect` aborting the whole
  transaction (the host rolls back all writes, so no intermediate
  `set` survives a failed call).
* `require_auth` is modelled by a list of authorized addresses carried
  in `Env`; `env.timestamp` is the ledger clock.
* `u32`/`u64` arithmetic is checked (Soroban contracts are built with
  overflow-checks enabled), so overflow/underflow aborts the call.
-/

abbrev Address := Nat

def U32_MOD : Nat := 2 ^ 32

/-- Checked unsigned subtraction: a Rust `u64` subtraction traps on
underflow, which aborts the transaction. -/
def checkedSub (a b : Nat) : Except String Nat :=
  if a < b then .error "attempt to subtract with overflow" else .ok (a - b)

/-- Checked `u32` addition: traps when the mathematical sum leaves the
`u32` range. -/
def checkedAddU32 (a b : Nat) : Except String Nat :=
  if a + b < U32_MOD then .ok (a + b) else .error "attempt to add with overflow"

/-- Rust struct `Message`. -/
structure Message where
  sender : Address
  text : String
  timestamp : Nat
deriving DecidableEq, Repr

/-- Rust struct `Merchant` (the Academy identity). -/
structure Merchant where
  trust_score : Nat
  bond_staked : Bool
  bzr_balance : Int
  badges : List String
  is_disputed : Bool
  nickname : String
  messages : List Message
deriving DecidableEq, Repr

/-- Rust struct `LegacyVault` (the deadman switch record). -/
structure LegacyVault where
  heir : Option Address
  last_heartbeat : Nat
  is_locked : Bool
  is_frozen : Bool
deriving DecidableEq, Repr

/-- Rust struct `MedicalEmergency`. -/
structure MedicalEmergency where
  target_user : Address
  votes_collected : Nat
  is_unlocked : Bool
deriving DecidableEq, Repr

/-- The persistent store, one partial map per `DataKey` constructor:
`Merchant`, `Vault`, `Witnesses`, `Emergency`, `PanicVotes`. -/
structure Storage where
  merchants : Address → Option Merchant
  vaults : Address → Option LegacyVault
  witnesses : Address → Option (List Address)
  emergencies : Address → Option MedicalEmergency
  panicVotes : Address → Option Nat

/-- The empty store: every key absent. -/
def Storage.init : Storage :=
  { merchants := fun _ => none
    vaults := fun _ => none
    witnesses := fun _ => none
    emergencies := fun _ => none
    panicVotes := fun _ => none }

def Storage.setMerchant (s : Storage) (a : Address) (m : Merchant) : Storage :=
  { s with merchants := fun x => if x = a then some m else s.merchants x }

def Storage.setVault (s : Storage) (a : Address) (v : LegacyVault) : Storage :=
  { s with vaults := fun x => if x = a then some v else s.vaults x }

def Storage.setWitnesses (s : Storage) (a : Address) (w : List Address) : Storage :=
  { s with witnesses := fun x => if x = a then some w else s.witnesses x }

def Storage.setEmergency (s : Storage) (a : Address) (e : MedicalEmergency) : Storage :=
  { s with emergencies := fun x => if x = a then some e else s.emergencies x }

def Storage.setPanicVotes (s : Storage) (a : Address) (n : Nat) : Storage :=
  { s with panicVotes := fun x => if x = a then some n else s.panicVotes x }

/-- Host environment visible to a call: the ledger timestamp and the
set of addresses whose `require_auth` would succeed in this
transaction. -/
structure Env where
  timestamp : Nat
  authorized : List Address
deriving DecidableEq, Repr

/-- `user.require_auth()`: aborts unless the host authorized `a`. -/
def require_auth (env : Env) (a : Address) : Bool :=
  env.authorized.contains a

/-- `create_vault(env, user, heir)`: stores a fresh vault for `user`
(unconditionally overwriting any existing one). -/
def create_vault (env : Env) (user heir : Address) (s : Storage) : Except String Storage :=
  if !(require_auth env user) then .error "Unauthorized" else
  .ok (s.setVault user
    { heir := some heir
      last_heartbeat := env.timestamp
      is_locked := true
      is_frozen := false })

/-- `ping_heartbeat(env, user)`: clears a panic freeze and resets the
deadman timer to now. -/
def ping_heartbeat (env : Env) (user : Address) (s : Storage) : Except String Storage :=
  if !(require_auth env user) then .error "Unauthorized" else
  match s.vaults user with
  | none => .error "Vault not found"
  | some vault =>
    let vault1 := if vault.is_frozen then { vault with is_frozen := false } else vault
    .ok (s.setVault user { vault1 with last_heartbeat := env.timestamp })

/-- `claim_legacy(env, target_user)`: heir-authorized claim; succeeds
only when at least 15,552,000 seconds elapsed since the last
heartbeat. The asset transfer is a stub, so the store is unchanged. -/
def claim_legacy (env : Env) (target_user : Address) (s : Storage) : Except String Storage :=
  match s.vaults target_user with
  | none => .error "Vault not found"
  | some vault =>
    match vault.heir with
    | none => .error "called unwrap on a None value"
    | some heir =>
      if !(require_auth env heir) then .error "Unauthorized" else
      match checkedSub env.timestamp vault.last_heartbeat with
      | .error e => .error e
      | .ok time_elapsed =>
        if time_elapsed < 15552000 then
          .error "Owner is still alive (Timer has not expired)"
        else .ok s

/-- `assign_witnesses(env, user, witnesses)`: stores the security
circle, rejecting lists longer than 5. -/
def assign_witnesses (env : Env) (user : Address) (ws : List Address) (s : Storage) :
    Except String Storage :=
  if !(require_auth env user) then .error "Unauthorized" else
  if ws.length > 5 then .error "Max 5 witnesses allowed" else
  .ok (s.setWitnesses user ws)

/-- `declare_emergency(env, target_user)`: creates a fresh emergency
record (no authorization check in the source). -/
def declare_emergency (_env : Env) (target_user : Address) (s : Storage) :
    Except String Storage :=
  match s.emergencies target_user with
  | some _ => .error "Emergency already active"
  | none =>
    .ok (s.setEmergency target_user
      { target_user := target_user, votes_collected := 0, is_unlocked := false })

/-- `witness_vote_medical(env, witness, target_user)`: a circle member
votes; at 3 or more collected votes the emergency unlocks. -/
def witness_vote_medical (env : Env) (witness target_user : Address) (s : Storage) :
    Except String Storage :=
  if !(require_auth env witness) then .error "Unauthorized" else
  match s.witnesses target_user with
  | none => .error "No Circle found"
  | some circ =>
    if !(circ.contains witness) then .error "Not a witness" else
    match s.emergencies target_user with
    | none => .error "No emergency"
    | some emergency =>
      match checkedAddU32 emergency.votes_collected 1 with
      | .error e => .error e
      | .ok v =>
        let em1 := { emergency with votes_collected := v }
        let em2 := if v ≥ 3 then { em1 with is_unlocked := true } else em1
        .ok (s.setEmergency target_user em2)

/-- `panic_button(env, witness, target_user)`: a circle member votes to
freeze; at 3 or more votes the vault is frozen and the deadman timer is
warped to `now - (15,552,000 - 604,800)`. -/
def panic_button (env : Env) (witness target_user : Address) (s : Storage) :
    Except String Storage :=
  if !(require_auth env witness) then .error "Unauthorized" else
  match s.witnesses target_user with
  | none => .error "No Circle found"
  | some circ =>
    if !(circ.contains witness) then .error "Not a witness" else
    match checkedAddU32 ((s.panicVotes target_user).getD 0) 1 with
    | .error e => .error e
    | .ok votes =>
      let s1 := s.setPanicVotes target_user votes
      if votes ≥ 3 then
        match s1.vaults target_user with
        | none => .error "Vault not found"
        | some vault =>
          match checkedSub env.timestamp (15552000 - 604800) with
          | .error e => .error e
          | .ok lh =>
            .ok (s1.setVault target_user
              { vault with is_frozen := true, last_heartbeat := lh })
      else .ok s1

/-- The default `Merchant` record used by `unwrap_or` in `stake` and
`get_trust`. -/
def defaultMerchant : Merchant :=
  { trust_score := 0
    bond_staked := false
    bzr_balance := 0
    badges := []
    is_disputed := false
    nickname := "User"
    messages := [] }

/-- `stake(env, user)`: first-time bond adds 10 trust. -/
def stake (env : Env) (user : Address) (s : Storage) : Except String Storage :=
  if !(require_auth env user) then .error "Unauthorized" else
  let merchant := (s.merchants user).getD defaultMerchant
  if merchant.bond_staked then .error "Already bonded" else
  match checkedAddU32 merchant.trust_score 10 with
  | .error e => .error e
  | .ok ts =>
    .ok (s.setMerchant user { merchant with bond_staked := true, trust_score := ts })

/-- `vouch(env, voucher, target)`: adds 1 trust while below the cap of
100. -/
def vouch (env : Env) (voucher target : Address) (s : Storage) : Except String Storage :=
  if !(require_auth env voucher) then .error "Unauthorized" else
  match s.merchants target with
  | none => .error "Target not found"
  | some target_data =>
    if target_data.trust_score < 100 then
      match checkedAddU32 target_data.trust_score 1 with
      | .error e => .error e
      | .ok ts => .ok (s.setMerchant target { target_data with trust_score := ts })
    else .ok (s.setMerchant target target_data)

/-- `get_trust(env, user)`: reads the trust score, defaulting to 0. -/
def get_trust (_env : Env) (user : Address) (s : Storage) : Nat :=
  ((s.merchants user).getD defaultMerchant).trust_score

/-- One public entry point of the contract together with its call-time
environment. -/
inductive Op where
  | opCreateVault (env : Env) (user heir : Address)
  | opPingHeartbeat (env : Env) (user : Address)
  | opClaimLegacy (env : Env) (target : Address)
  | opAssignWitnesses (env : Env) (user : Address) (ws : List Address)
  | opDeclareEmergency (env : Env) (target : Address)
  | opWitnessVoteMedical (env : Env) (witness target : Address)
  | opPanicButton (env : Env) (witness target : Address)
  | opStake (env : Env) (user : Address)
  | opVouch (env : Env) (voucher target : Address)
  | opGetTrust (env : Env) (user : Address)
deriving DecidableEq, Repr

/-- Dispatch an operation against the store. -/
def Op.apply : Op → Storage → Except String Storage
  | .opCreateVault env u h, s => create_vault env u h s
  | .opPingHeartbeat env u, s => ping_heartbeat env u s
  | .opClaimLegacy env t, s => claim_legacy env t s
  | .opAssignWitnesses env u ws, s => assign_witnesses env u ws s
  | .opDeclareEmergency env t, s => declare_emergency env t s
  | .opWitnessVoteMedical env w t, s => witness_vote_medical env w t s
  | .opPanicButton env w t, s => panic_button env w t s
  | .opStake env u, s => stake env u s
  | .opVouch env v t, s => vouch env v t s
  | .opGetTrust _ _, s => .ok s

/-- Host-level transaction commit: a failed call is rolled back, so the
store is unchanged. -/
def commit (s : Storage) (r : Except String Storage) : Storage :=
  match r with
  | .ok s1 => s1
  | .error _ => s

/-- Run one transaction: apply and commit (abort keeps the old store). -/
def Op.run (op : Op) (s : Storage) : Storage :=
  commit s (op.apply s)

/-- Run a sequence of transactions. -/
def runOps (ops : List Op) (s : Storage) : Storage :=
  ops.foldl (fun st op => op.run st) s

/-- Spec §3 invariant on SecurityCircle records: every stored circle
has at most 5 members. -/
def CircleInv (s : Storage) : Prop :=
  ∀ a c, s.witnesses a = some c → c.length ≤ 5

/-- Invariant on Merchant records: every stored merchant is bonded and
its trust score is at most 100. -/
def MerchantInv (s : Storage) : Prop :=
  ∀ a m, s.merchants a = some m → m.trust_score ≤ 100 ∧ m.bond_staked = true

/-- The trust-score subsystem's operations (`stake`, `vouch`,
`get_trust`). -/
def TrustOp : Op → Bool
  | .opStake _ _ => true
  | .opVouch _ _ _ => true
  | .opGetTrust _ _ => true
  | _ => false

/-! ### Concrete stores used to evaluate the operations -/

/-- A store holding one vault (owner 1, heir 9, heartbeat 0). -/
def vaultStoreA : Storage :=
  { Storage.init with
      vaults := fun a => if a = 1 then some ⟨some 9, 0, true, false⟩ else none }

/-- A store holding one vault (owner 1, heir 2, heartbeat 100). -/
def pingStore : Storage :=
  { Storage.init with
      vaults := fun a => if a = 1 then some ⟨some 2, 100, true, false⟩ else none }

/-- A store where target 1 has circle [7], a vault, and 2 panic votes. -/
def panicStore : Storage :=
  { Storage.init with
      vaults := fun a => if a = 1 then some ⟨some 9, 100, true, false⟩ else none
      witnesses := fun a => if a = 1 then some [7] else none
      panicVotes := fun a => if a = 1 then some 2 else none }

/-- A store where target 1 has circle [7], a frozen vault, and 3 panic
votes already counted. -/
def panicStore3 : Storage :=
  { Storage.init with
      vaults := fun a => if a = 1 then some ⟨some 9, 100, true, true⟩ else none
      witnesses := fun a => if a = 1 then some [7] else none
      panicVotes := fun a => if a = 1 then some 3 else none }

/-- A store where target 1 has circle [7] and 2 panic votes but no
vault. -/
def panicStoreNoVault : Storage :=
  { Storage.init with
      witnesses := fun a => if a = 1 then some [7] else none
      panicVotes := fun a => if a = 1 then some 2 else none }

/-- A store where target 1 has circle [7, 8, 9] and a fresh emergency
with zero votes. -/
def medStore : Storage :=
  { Storage.init with
      witnesses := fun a => if a = 1 then some [7, 8, 9] else none
      emergencies := fun a => if a = 1 then some ⟨1, 0, false⟩ else none }

/-- A store where target 1 has circle [7, 8, 9] and an emergency with
2 votes. -/
def medStore2 : Storage :=
  { Storage.init with
      witnesses := fun a => if a = 1 then some [7, 8, 9] else none
      emergencies := fun a => if a = 1 then some ⟨1, 2, false⟩ else none }

/-- A store where target 1 has an unlocked emergency. -/
def medStoreUnlocked : Storage :=
  { Storage.init with
      emergencies := fun a => if a = 1 then some ⟨1, 3, true⟩ else none }

/-! ### Reading the store after a write -/

theorem Storage.setMerchant_merchants (s : Storage) (a : Address) (m : Merchant) (x : Address) :
    (s.setMerchant a m).merchants x = if x = a then some m else s.merchants x := rfl

theorem Storage.setVault_vaults (s : Storage) (a : Address) (v : LegacyVault) (x : Address) :
    (s.setVault a v).vaults x = if x = a then some v else s.vaults x := rfl

theorem Storage.setWitnesses_witnesses (s : Storage) (a : Address) (w : List Address) (x : Address) :
    (s.setWitnesses a w).witnesses x = if x = a then some w else s.witnesses x := rfl

theorem Storage.setEmergency_emergencies (s : Storage) (a : Address) (e : MedicalEmergency) (x : Address) :
    (s.setEmergency a e).emergencies x = if x = a then some e else s.emergencies x := rfl

theorem Storage.setPanicVotes_panicVotes (s : Storage) (a : Address) (n : Nat) (x : Address) :
    (s.setPanicVotes a n).panicVotes x = if x = a then some n else s.panicVotes x := rfl

/-! ### Frame lemmas: which operations can touch which store component -/

theorem run_witnesses_frame (op : Op) (s : Storage)
    (hop : ∀ env u ws, op ≠ Op.opAssignWitnesses env u ws) :
    (op.run s).witnesses = s.witnesses := by
  cases op
  case opAssignWitnesses env u ws => exact absurd rfl (hop env u ws)
  all_goals
    simp only [Op.run, Op.apply, create_vault, ping_heartbeat, claim_legacy,
      declare_emergency, witness_vote_medical, panic_button, stake, vouch]
  all_goals repeat' split
  all_goals try simp only []
  all_goals rfl

theorem run_merchants_frame (op : Op) (s : Storage)
    (hop1 : ∀ env u, op ≠ Op.opStake env u)
    (hop2 : ∀ env v t, op ≠ Op.opVouch env v t) :
    (op.run s).merchants = s.merchants := by
  cases op
  case opStake env u => exact absurd rfl (hop1 env u)
  case opVouch env v t => exact absurd rfl (hop2 env v t)
  all_goals
    simp only [Op.run, Op.apply, create_vault, ping_heartbeat, claim_legacy,
      assign_witnesses, declare_emergency, witness_vote_medical, panic_button]
  all_goals repeat' split
  all_goals try simp only []
  all_goals rfl

theorem run_emergencies_frame (op : Op) (s : Storage)
    (hop1 : ∀ env t, op ≠ Op.opDeclareEmergency env t)
    (hop2 : ∀ env w t, op ≠ Op.opWitnessVoteMedical env w t) :
    (op.run s).emergencies = s.emergencies := by
  cases op
  case opDeclareEmergency env t => exact absurd rfl (hop1 env t)
  case opWitnessVoteMedical env w t => exact absurd rfl (hop2 env w t)
  all_goals
    simp only [Op.run, Op.apply, create_vault, ping_heartbeat, claim_legacy,
      assign_witnesses, panic_button, stake, vouch]
  all_goals repeat' split
  all_goals try simp only []
  all_goals rfl

/-! ### Circle capacity invariant -/

theorem circleInv_run (op : Op) (s : Storage) (h : CircleInv s) : CircleInv (op.run s) := by
  intro a c hc
  cases op
  case opAssignWitnesses e u0 ws0 =>
    simp only [Op.run, Op.apply] at hc
    unfold assign_witnesses at hc
    repeat' split at hc
    · exact h a c hc
    · exact h a c hc
    · simp only [commit] at hc
      rw [Storage.setWitnesses_witnesses] at hc
      split at hc
      · injection hc with hws
        subst hws
        omega
      · exact h a c hc
  case opCreateVault e u0 h0 =>
    rw [run_witnesses_frame (Op.opCreateVault e u0 h0) s (by simp)] at hc
    exact h a c hc
  case opPingHeartbeat e u0 =>
    rw [run_witnesses_frame (Op.opPingHeartbeat e u0) s (by simp)] at hc
    exact h a c hc
  case opClaimLegacy e t0 =>
    rw [run_witnesses_frame (Op.opClaimLegacy e t0) s (by simp)] at hc
    exact h a c hc
  case opDeclareEmergency e t0 =>
    rw [run_witnesses_frame (Op.opDeclareEmergency e t0) s (by simp)] at hc
    exact h a c hc
  case opWitnessVoteMedical e w0 t0 =>
    rw [run_witnesses_frame (Op.opWitnessVoteMedical e w0 t0) s (by simp)] at hc
    exact h a c hc
  case opPanicButton e w0 t0 =>
    rw [run_witnesses_frame (Op.opPanicButton e w0 t0) s (by simp)] at hc
    exact h a c hc
  case opStake e u0 =>
    rw [run_witnesses_frame (Op.opStake e u0) s (by simp)] at hc
    exact h a c hc
  case opVouch e v0 t0 =>
    rw [run_witnesses_frame (Op.opVouch e v0 t0) s (by simp)] at hc
    exact h a c hc
  case opGetTrust e u0 =>
    rw [run_witnesses_frame (Op.opGetTrust e u0) s (by simp)] at hc
    exact h a c hc

theorem circleInv_runOps (ops : List Op) (s : Storage) (h : CircleInv s) :
    CircleInv (runOps ops s) := by
  induction ops generalizing s with
  | nil => exact h
  | cons op rest ih => exact ih (op.run s) (circleInv_run op s h)

/-! ### Claim theorems -/

/-- C3: for every heir-authorized claim_legacy call on an existing vault,
the call fails with the owner-still-alive error exactly when
now - last_heartbeat < 15,552,000 and reaches the release point exactly
when now - last_heartbeat ≥ 15,552,000. -/
theorem claim_legacy_threshold (env : Env) (t hr : Address) (s : Storage) (v : LegacyVault)
    (hvault : s.vaults t = some v) (hheir : v.heir = some hr)
    (hauth : require_auth env hr = true) (hle : v.last_heartbeat ≤ env.timestamp) :
    (claim_legacy env t s = .error "Owner is still alive (Timer has not expired)" ↔
      env.timestamp - v.last_heartbeat < 15552000) ∧
    (claim_legacy env t s = .ok s ↔ 15552000 ≤ env.timestamp - v.last_heartbeat) := by
  have hcs : checkedSub env.timestamp v.last_heartbeat = .ok (env.timestamp - v.last_heartbeat) := by
    simp [checkedSub, Nat.not_lt.mpr hle]
  simp only [claim_legacy, hvault, hheir, hauth, Bool.not_true, if_neg]
  rw [hcs]
  constructor
  · split <;> simp_all
  · split <;> simp_all [Nat.not_lt.mp]

/-- Witness for C3 at a concrete input: vault with heartbeat 0,
heir 9 authorized, clock exactly at the threshold. -/
theorem claim_legacy_threshold_witness :
    (claim_legacy ⟨15552000, [9]⟩ 1 vaultStoreA = .error "Owner is still alive (Timer has not expired)" ↔
      15552000 - 0 < 15552000) ∧
    (claim_legacy ⟨15552000, [9]⟩ 1 vaultStoreA = .ok vaultStoreA ↔ 15552000 ≤ 15552000 - 0) :=
  claim_legacy_threshold ⟨15552000, [9]⟩ 1 9 vaultStoreA ⟨some 9, 0, true, false⟩
    rfl rfl rfl (by decide)

/-- C7 (amended): an authorized ping_heartbeat on an existing vault
rewrites it with last_heartbeat = now and is_frozen = false (a strict
increase whenever the clock exceeds the stored heartbeat), and fails
with the record-not-found error when no vault exists. -/
theorem ping_heartbeat_resets (env : Env) (u : Address) (s : Storage)
    (hauth : require_auth env u = true) :
    (∀ v, s.vaults u = some v →
      ping_heartbeat env u s =
        .ok (s.setVault u { heir := v.heir, last_heartbeat := env.timestamp,
                            is_locked := v.is_locked, is_frozen := false })) ∧
    (s.vaults u = none → ping_heartbeat env u s = .error "Vault not found") := by
  constructor
  · intro v hv
    cases hf : v.is_frozen <;> simp [ping_heartbeat, hauth, hv, hf]
  · intro hv
    simp [ping_heartbeat, hauth, hv]

/-- Witness for C7 (amended) at a concrete input. -/
theorem ping_heartbeat_resets_witness :
    (∀ v, pingStore.vaults 1 = some v →
      ping_heartbeat ⟨250, [1]⟩ 1 pingStore =
        .ok (pingStore.setVault 1 { heir := v.heir, last_heartbeat := 250,
                                    is_locked := v.is_locked, is_frozen := false })) ∧
    (pingStore.vaults 1 = none → ping_heartbeat ⟨250, [1]⟩ 1 pingStore = .error "Vault not found") :=
  ping_heartbeat_resets ⟨250, [1]⟩ 1 pingStore rfl

/-- C7 counterexample: with the clock equal to the stored heartbeat
(two calls in the same ledger second), ping_heartbeat leaves
last_heartbeat at 100, so the update is not a strict increase. -/
theorem ping_heartbeat_not_strict :
    ping_heartbeat ⟨100, [1]⟩ 1 pingStore =
      .ok (pingStore.setVault 1 { heir := some 2, last_heartbeat := 100,
                                  is_locked := true, is_frozen := false }) ∧
    pingStore.vaults 1 = some { heir := some 2, last_heartbeat := 100,
                                is_locked := true, is_frozen := false } ∧
    ¬ (100 : Nat) < 100 :=
  ⟨rfl, rfl, by omega⟩

/-- C8: assign_witnesses fails with the max-5 error exactly for lists
longer than 5 and succeeds for 0 to 5 entries; consequently every
stored SecurityCircle has length at most 5. -/
theorem assign_witnesses_capacity (env : Env) (u : Address) (ws : List Address) (s : Storage)
    (hauth : require_auth env u = true) :
    (5 < ws.length → assign_witnesses env u ws s = .error "Max 5 witnesses allowed") ∧
    (ws.length ≤ 5 → assign_witnesses env u ws s = .ok (s.setWitnesses u ws)) ∧
    (∀ ops : List Op, CircleInv (runOps ops Storage.init)) := by
  refine ⟨?_, ?_, ?_⟩
  · intro hlen; simp [assign_witnesses, hauth, hlen]
  · intro hlen; simp [assign_witnesses, hauth, Nat.not_lt.mpr hlen]
  · intro ops
    exact circleInv_runOps ops Storage.init (fun a c hc => Option.noConfusion hc)

/-- Witness for C8 at a concrete input: a 3-element list. -/
theorem assign_witnesses_capacity_witness :
    (5 < [2, 3, 4].length →
      assign_witnesses ⟨0, [4]⟩ 4 [2, 3, 4] Storage.init = .error "Max 5 witnesses allowed") ∧
    ([2, 3, 4].length ≤ 5 →
      assign_witnesses ⟨0, [4]⟩ 4 [2, 3, 4] Storage.init = .ok (Storage.init.setWitnesses 4 [2, 3, 4])) ∧
    (∀ ops : List Op, CircleInv (runOps ops Storage.init)) :=
  assign_witnesses_capacity ⟨0, [4]⟩ 4 [2, 3, 4] Storage.init rfl

/-! ### Evaluation helpers for panic_button and claim_legacy -/

/-- When an authorized circle member's vote brings the counter to 3 or
more and the vault exists (and the clock is at least 14,947,200), the
panic branch stores the incremented counter and the frozen, time-warped
vault. -/
theorem panic_button_fires (env : Env) (w t : Address) (s : Storage) (circ : List Address)
    (v : LegacyVault) (n : Nat)
    (hauth : require_auth env w = true)
    (hcirc : s.witnesses t = some circ)
    (hmem : circ.contains w = true)
    (hvotes : (s.panicVotes t).getD 0 = n)
    (hn3 : 3 ≤ n + 1) (hnlt : n + 1 < U32_MOD)
    (hvault : s.vaults t = some v)
    (hts : 14947200 ≤ env.timestamp) :
    panic_button env w t s =
      .ok ((s.setPanicVotes t (n + 1)).setVault t
        { v with is_frozen := true, last_heartbeat := env.timestamp - 14947200 }) := by
  have hadd : checkedAddU32 ((s.panicVotes t).getD 0) 1 = .ok (n + 1) := by
    rw [hvotes]; simp [checkedAddU32, hnlt]
  have hsub : checkedSub env.timestamp 14947200 = .ok (env.timestamp - 14947200) := by
    simp [checkedSub, Nat.not_lt.mpr hts]
  simp [panic_button, hauth, hcirc, hmem, hadd, hsub, hvault, hn3, Storage.setPanicVotes]
  simpa using hmem

/-- Heir-authorized claim_legacy on an existing vault whose heartbeat is
not in the future reduces to the deadman-limit test. -/
theorem claim_legacy_eval (env : Env) (t hr : Address) (s : Storage) (v : LegacyVault)
    (hv : s.vaults t = some v) (hh : v.heir = some hr) (ha : require_auth env hr = true)
    (hle : v.last_heartbeat ≤ env.timestamp) :
    claim_legacy env t s =
      if env.timestamp - v.last_heartbeat < 15552000 then
        .error "Owner is still alive (Timer has not expired)"
      else .ok s := by
  have hcs : checkedSub env.timestamp v.last_heartbeat = .ok (env.timestamp - v.last_heartbeat) := by
    simp [checkedSub, Nat.not_lt.mpr hle]
  simp only [claim_legacy, hv, hh, ha, Bool.not_true, if_neg]
  rw [hcs]
  simp

/-- Heir-authorized claim_legacy traps in the u64 subtraction when the
stored heartbeat lies in the clock's future. -/
theorem claim_legacy_underflow (env : Env) (t hr : Address) (s : Storage) (v : LegacyVault)
    (hv : s.vaults t = some v) (hh : v.heir = some hr) (ha : require_auth env hr = true)
    (hlt : env.timestamp < v.last_heartbeat) :
    claim_legacy env t s = .error "attempt to subtract with overflow" := by
  simp only [claim_legacy, hv, hh, ha, Bool.not_true, if_neg]
  simp [checkedSub, hlt]

/-- C1: when the panic vote counter reaches 3 via an authorized circle
member's panic_button call on a target with a circle and a vault, the
call freezes the vault and sets last_heartbeat to now - 14,947,200, so
a heir-authorized claim_legacy fails before 604,800 further seconds
elapse and succeeds at or after that point. -/
theorem panic_third_vote_freeze_and_window (env env1 : Env) (w t hr : Address) (s : Storage)
    (circ : List Address) (v : LegacyVault)
    (hauth : require_auth env w = true)
    (hcirc : s.witnesses t = some circ)
    (hmem : circ.contains w = true)
    (hvault : s.vaults t = some v)
    (hvotes : (s.panicVotes t).getD 0 = 2)
    (hts : 14947200 ≤ env.timestamp)
    (hheir : v.heir = some hr)
    (hauth1 : require_auth env1 hr = true) :
    ∃ s1, panic_button env w t s = .ok s1 ∧
      s1.vaults t = some { heir := v.heir, last_heartbeat := env.timestamp - 14947200,
                           is_locked := v.is_locked, is_frozen := true } ∧
      (env1.timestamp < env.timestamp + 604800 → ∃ e, claim_legacy env1 t s1 = .error e) ∧
      (env.timestamp + 604800 ≤ env1.timestamp → claim_legacy env1 t s1 = .ok s1) := by
  have hv1 : ((s.setPanicVotes t 3).setVault t
      { v with is_frozen := true, last_heartbeat := env.timestamp - 14947200 }).vaults t =
      some { v with is_frozen := true, last_heartbeat := env.timestamp - 14947200 } := by
    rw [Storage.setVault_vaults]; simp
  refine ⟨(s.setPanicVotes t 3).setVault t
      { v with is_frozen := true, last_heartbeat := env.timestamp - 14947200 },
    panic_button_fires env w t s circ v 2 hauth hcirc hmem hvotes (by omega)
      (by norm_num [U32_MOD]) hvault hts, hv1, ?_, ?_⟩
  · intro hlt
    by_cases hcase : env1.timestamp < env.timestamp - 14947200
    · exact ⟨_, claim_legacy_underflow env1 t hr _ _ hv1 hheir hauth1 hcase⟩
    · push_neg at hcase
      have hcond : env1.timestamp -
          LegacyVault.last_heartbeat
            { v with is_frozen := true, last_heartbeat := env.timestamp - 14947200 } < 15552000 := by
        show env1.timestamp - (env.timestamp - 14947200) < 15552000
        omega
      exact ⟨_, by rw [claim_legacy_eval env1 t hr _ _ hv1 hheir hauth1 hcase, if_pos hcond]⟩
  · intro hge
    have hle1 : LegacyVault.last_heartbeat
        { v with is_frozen := true, last_heartbeat := env.timestamp - 14947200 } ≤ env1.timestamp := by
      show env.timestamp - 14947200 ≤ env1.timestamp
      omega
    have hcond : ¬ (env1.timestamp -
        LegacyVault.last_heartbeat
          { v with is_frozen := true, last_heartbeat := env.timestamp - 14947200 } < 15552000) := by
      show ¬ (env1.timestamp - (env.timestamp - 14947200) < 15552000)
      omega
    rw [claim_legacy_eval env1 t hr _ _ hv1 hheir hauth1 hle1, if_neg hcond]

/-- Witness for C1 at a concrete input: third vote at clock 15,552,000,
claim attempted exactly 604,800 seconds later. -/
theorem panic_third_vote_freeze_and_window_witness :
    ∃ s1, panic_button ⟨15552000, [7]⟩ 7 1 panicStore = .ok s1 ∧
      s1.vaults 1 = some { heir := some 9, last_heartbeat := 15552000 - 14947200,
                           is_locked := true, is_frozen := true } ∧
      (16156800 < 15552000 + 604800 → ∃ e, claim_legacy ⟨16156800, [9]⟩ 1 s1 = .error e) ∧
      (15552000 + 604800 ≤ 16156800 → claim_legacy ⟨16156800, [9]⟩ 1 s1 = .ok s1) :=
  panic_third_vote_freeze_and_window ⟨15552000, [7]⟩ ⟨16156800, [9]⟩ 7 1 9 panicStore [7]
    ⟨some 9, 100, true, false⟩ rfl rfl rfl rfl rfl (by norm_num) rfl rfl

/-- C2 (amended): a panic_button call by an authorized circle member on
a counter already at least 3 increments the counter and re-runs the
freeze branch: is_frozen is set to true and last_heartbeat is re-warped
to now - 14,947,200 (so last_heartbeat changes whenever that value
differs from the stored one). -/
theorem panic_button_past_threshold (env : Env) (w t : Address) (s : Storage)
    (circ : List Address) (v : LegacyVault) (n : Nat)
    (hauth : require_auth env w = true)
    (hcirc : s.witnesses t = some circ)
    (hmem : circ.contains w = true)
    (hvotes : s.panicVotes t = some n)
    (hn : 3 ≤ n) (hnlt : n + 1 < U32_MOD)
    (hvault : s.vaults t = some v)
    (hts : 14947200 ≤ env.timestamp) :
    panic_button env w t s =
      .ok ((s.setPanicVotes t (n + 1)).setVault t
        { v with is_frozen := true, last_heartbeat := env.timestamp - 14947200 }) :=
  panic_button_fires env w t s circ v n hauth hcirc hmem (by rw [hvotes]; rfl) (by omega)
    hnlt hvault hts

/-- Witness for C2 (amended) at a concrete input: fourth vote at clock
20,000,000. -/
theorem panic_button_past_threshold_witness :
    panic_button ⟨20000000, [7]⟩ 7 1 panicStore3 =
      .ok ((panicStore3.setPanicVotes 1 (3 + 1)).setVault 1
        { heir := some 9, last_heartbeat := 20000000 - 14947200,
          is_locked := true, is_frozen := true }) :=
  panic_button_past_threshold ⟨20000000, [7]⟩ 7 1 panicStore3 [7] ⟨some 9, 100, true, true⟩ 3
    rfl rfl rfl rfl (by norm_num) (by norm_num [U32_MOD]) rfl (by norm_num)

/-- C2 counterexample: with the counter already at 3 and the vault's
heartbeat at 100, a fourth authorized panic_button call at clock
20,000,000 rewrites last_heartbeat to 5,052,800 ≠ 100, so the call does
not leave last_heartbeat exactly as it was. -/
theorem panic_button_past_threshold_countereg :
    panic_button ⟨20000000, [7]⟩ 7 1 panicStore3 =
      .ok ((panicStore3.setPanicVotes 1 4).setVault 1 ⟨some 9, 5052800, true, true⟩) ∧
    panicStore3.vaults 1 = some ⟨some 9, 100, true, true⟩ ∧
    ((panicStore3.setPanicVotes 1 4).setVault 1 ⟨some 9, 5052800, true, true⟩).vaults 1 =
      some ⟨some 9, 5052800, true, true⟩ ∧
    (100 : Nat) ≠ 5052800 :=
  ⟨rfl, rfl, rfl, by omega⟩

/-- C10: the time-warp subtraction now - 14,947,200 is unguarded u64
arithmetic, so a third panic vote completes the freeze exactly when the
clock is at least 14,947,200 and traps with an arithmetic underflow for
every earlier clock value. -/
theorem panic_threshold_underflow (env : Env) (w t : Address) (s : Storage)
    (circ : List Address) (v : LegacyVault)
    (hauth : require_auth env w = true)
    (hcirc : s.witnesses t = some circ)
    (hmem : circ.contains w = true)
    (hvault : s.vaults t = some v)
    (hvotes : (s.panicVotes t).getD 0 = 2) :
    (env.timestamp < 14947200 →
      panic_button env w t s = .error "attempt to subtract with overflow") ∧
    (14947200 ≤ env.timestamp →
      panic_button env w t s =
        .ok ((s.setPanicVotes t 3).setVault t
          { v with is_frozen := true, last_heartbeat := env.timestamp - 14947200 })) := by
  constructor
  · intro hlt
    have hadd : checkedAddU32 ((s.panicVotes t).getD 0) 1 = .ok 3 := by
      rw [hvotes]; simp [checkedAddU32, U32_MOD]
    have hsub : checkedSub env.timestamp 14947200 = .error "attempt to subtract with overflow" := by
      simp [checkedSub, hlt]
    simp [panic_button, hauth, hcirc, hmem, hadd, hsub, hvault, Storage.setPanicVotes]
    simpa using hmem
  · intro hts
    exact panic_button_fires env w t s circ v 2 hauth hcirc hmem hvotes (by omega)
      (by norm_num [U32_MOD]) hvault hts

/-- Witness for C10 at a concrete input: clock 0 (before 14,947,200),
third vote traps. -/
theorem panic_threshold_underflow_witness :
    (0 < 14947200 → panic_button ⟨0, [7]⟩ 7 1 panicStore = .error "attempt to subtract with overflow") ∧
    (14947200 ≤ 0 → panic_button ⟨0, [7]⟩ 7 1 panicStore =
      .ok ((panicStore.setPanicVotes 1 3).setVault 1
        { heir := some 9, last_heartbeat := 0 - 14947200, is_locked := true, is_frozen := true })) :=
  panic_threshold_underflow ⟨0, [7]⟩ 7 1 panicStore [7] ⟨some 9, 100, true, false⟩ rfl rfl rfl rfl rfl

/-- C4: a panic_button call whose third vote finds no vault aborts with
"vault not found", and the committed (rolled-back) store — in
particular the panic vote counter — is exactly the pre-call store. -/
theorem panic_button_abort_preserves_store (env : Env) (w t : Address) (s : Storage)
    (circ : List Address)
    (hauth : require_auth env w = true)
    (hcirc : s.witnesses t = some circ)
    (hmem : circ.contains w = true)
    (hvotes : (s.panicVotes t).getD 0 = 2)
    (hnovault : s.vaults t = none) :
    panic_button env w t s = .error "Vault not found" ∧
    commit s (panic_button env w t s) = s ∧
    (commit s (panic_button env w t s)).panicVotes t = s.panicVotes t := by
  have hadd : checkedAddU32 ((s.panicVotes t).getD 0) 1 = .ok 3 := by
    rw [hvotes]; simp [checkedAddU32, U32_MOD]
  have herr : panic_button env w t s = .error "Vault not found" := by
    simp [panic_button, hauth, hcirc, hmem, hadd, hnovault, Storage.setPanicVotes]
    simpa using hmem
  exact ⟨herr, by rw [herr]; rfl, by rw [herr]; rfl⟩

/-- Witness for C4 at a concrete input: circle [7], two prior votes, no
vault. -/
theorem panic_button_abort_preserves_store_witness :
    panic_button ⟨0, [7]⟩ 7 1 panicStoreNoVault = .error "Vault not found" ∧
    commit panicStoreNoVault (panic_button ⟨0, [7]⟩ 7 1 panicStoreNoVault) = panicStoreNoVault ∧
    (commit panicStoreNoVault (panic_button ⟨0, [7]⟩ 7 1 panicStoreNoVault)).panicVotes 1 =
      panicStoreNoVault.panicVotes 1 :=
  panic_button_abort_preserves_store ⟨0, [7]⟩ 7 1 panicStoreNoVault [7] rfl rfl rfl rfl rfl

/-! ### Medical emergency voting -/

theorem commit_ok (s s1 : Storage) : commit s (.ok s1) = s1 := rfl

theorem commit_error (s : Storage) (e : String) : commit s (.error e) = s := rfl

/-- An authorized circle member's medical vote stores the incremented
counter, unlocking at 3 or more collected votes. -/
theorem witness_vote_medical_eval (env : Env) (w t : Address) (s : Storage) (circ : List Address)
    (em : MedicalEmergency)
    (hauth : require_auth env w = true)
    (hcirc : s.witnesses t = some circ)
    (hmem : circ.contains w = true)
    (hem : s.emergencies t = some em)
    (hlt : em.votes_collected + 1 < U32_MOD) :
    witness_vote_medical env w t s =
      .ok (s.setEmergency t
        (if em.votes_collected + 1 ≥ 3 then
          { em with votes_collected := em.votes_collected + 1, is_unlocked := true }
        else { em with votes_collected := em.votes_collected + 1 })) := by
  have hadd : checkedAddU32 em.votes_collected 1 = .ok (em.votes_collected + 1) := by
    simp [checkedAddU32, hlt]
  simp [witness_vote_medical, hauth, hcirc, hmem, hem, hadd]
  simpa using hmem

/-- C9: neither quorum protocol deduplicates voters: three successive
authorized witness_vote_medical calls by one circle member W bring
votes_collected from 0 to 3 and set is_unlocked, exactly as three
distinct witnesses would. -/
theorem medical_no_dedup (env : Env) (w w1 w2 w3 t : Address) (s : Storage) (circ : List Address)
    (em : MedicalEmergency)
    (hauth : require_auth env w = true)
    (hcirc : s.witnesses t = some circ)
    (hmem : circ.contains w = true)
    (hem : s.emergencies t = some em)
    (hv0 : em.votes_collected = 0)
    (hauth1 : require_auth env w1 = true) (hmem1 : circ.contains w1 = true)
    (hauth2 : require_auth env w2 = true) (hmem2 : circ.contains w2 = true)
    (hauth3 : require_auth env w3 = true) (hmem3 : circ.contains w3 = true)
    (hne12 : w1 ≠ w2) (hne13 : w1 ≠ w3) (hne23 : w2 ≠ w3) :
    ∃ s3, ((witness_vote_medical env w t s).bind
        (witness_vote_medical env w t)).bind (witness_vote_medical env w t) = .ok s3 ∧
      s3.emergencies t =
        some { target_user := em.target_user, votes_collected := 3, is_unlocked := true } ∧
      ∃ s3', ((witness_vote_medical env w1 t s).bind
          (witness_vote_medical env w2 t)).bind (witness_vote_medical env w3 t) = .ok s3' ∧
        s3'.emergencies t =
          some { target_user := em.target_user, votes_collected := 3, is_unlocked := true } := by
  obtain ⟨tu, vc, un⟩ := em
  simp only [MedicalEmergency.votes_collected] at hv0
  subst hv0
  have step : ∀ (wx : Address) (sx : Storage) (vcx : Nat) (unx : Bool),
      require_auth env wx = true → circ.contains wx = true →
      sx.witnesses t = some circ →
      sx.emergencies t = some ⟨tu, vcx, unx⟩ → vcx + 1 < U32_MOD →
      witness_vote_medical env wx t sx =
        .ok (sx.setEmergency t (if vcx + 1 ≥ 3 then ⟨tu, vcx + 1, true⟩ else ⟨tu, vcx + 1, unx⟩)) := by
    intro wx sx vcx unx ha hm hw he hl
    have hx := witness_vote_medical_eval env wx t sx circ ⟨tu, vcx, unx⟩ ha hw hm he hl
    simpa using hx
  have hem1 : (s.setEmergency t ⟨tu, 1, un⟩).emergencies t = some ⟨tu, 1, un⟩ := by
    rw [Storage.setEmergency_emergencies]; simp
  have hem2 : ((s.setEmergency t ⟨tu, 1, un⟩).setEmergency t ⟨tu, 2, un⟩).emergencies t =
      some ⟨tu, 2, un⟩ := by
    rw [Storage.setEmergency_emergencies]; simp
  have hfin : (((s.setEmergency t ⟨tu, 1, un⟩).setEmergency t ⟨tu, 2, un⟩).setEmergency t
      ⟨tu, 3, true⟩).emergencies t = some ⟨tu, 3, true⟩ := by
    rw [Storage.setEmergency_emergencies]; simp
  have h1 := step w s 0 un hauth hmem hcirc hem (by norm_num [U32_MOD])
  rw [if_neg (by norm_num)] at h1
  norm_num at h1
  have h2 := step w (s.setEmergency t ⟨tu, 1, un⟩) 1 un hauth hmem hcirc hem1 (by norm_num [U32_MOD])
  rw [if_neg (by norm_num)] at h2
  norm_num at h2
  have h3 := step w ((s.setEmergency t ⟨tu, 1, un⟩).setEmergency t ⟨tu, 2, un⟩) 2 un
    hauth hmem hcirc hem2 (by norm_num [U32_MOD])
  rw [if_pos (by norm_num)] at h3
  norm_num at h3
  have g1 := step w1 s 0 un hauth1 hmem1 hcirc hem (by norm_num [U32_MOD])
  rw [if_neg (by norm_num)] at g1
  norm_num at g1
  have g2 := step w2 (s.setEmergency t ⟨tu, 1, un⟩) 1 un hauth2 hmem2 hcirc hem1 (by norm_num [U32_MOD])
  rw [if_neg (by norm_num)] at g2
  norm_num at g2
  have g3 := step w3 ((s.setEmergency t ⟨tu, 1, un⟩).setEmergency t ⟨tu, 2, un⟩) 2 un
    hauth3 hmem3 hcirc hem2 (by norm_num [U32_MOD])
  rw [if_pos (by norm_num)] at g3
  norm_num at g3
  refine ⟨_, ?_, hfin, _, ?_, hfin⟩
  · rw [h1]
    simp only [Except.bind]
    rw [h2]
    simp only [Except.bind]
    exact h3
  · rw [g1]
    simp only [Except.bind]
    rw [g2]
    simp only [Except.bind]
    exact g3

/-- Witness for C9 at a concrete input: witness 7 votes three times,
and separately 7, 8, 9 each vote once. -/
theorem medical_no_dedup_witness :
    ∃ s3, ((witness_vote_medical ⟨0, [7, 8, 9]⟩ 7 1 medStore).bind
        (witness_vote_medical ⟨0, [7, 8, 9]⟩ 7 1)).bind
          (witness_vote_medical ⟨0, [7, 8, 9]⟩ 7 1) = .ok s3 ∧
      s3.emergencies 1 = some { target_user := 1, votes_collected := 3, is_unlocked := true } ∧
      ∃ s3', ((witness_vote_medical ⟨0, [7, 8, 9]⟩ 7 1 medStore).bind
          (witness_vote_medical ⟨0, [7, 8, 9]⟩ 8 1)).bind
            (witness_vote_medical ⟨0, [7, 8, 9]⟩ 9 1) = .ok s3' ∧
        s3'.emergencies 1 = some { target_user := 1, votes_collected := 3, is_unlocked := true } :=
  medical_no_dedup ⟨0, [7, 8, 9]⟩ 7 7 8 9 1 medStore [7, 8, 9] ⟨1, 0, false⟩
    rfl rfl rfl rfl rfl rfl rfl rfl rfl rfl rfl (by decide) (by decide) (by decide)

/-- Once an emergency is unlocked, no contract operation resets the
flag. -/
theorem unlocked_latch_run (op : Op) (s : Storage) (a : Address) (em : MedicalEmergency)
    (hem : s.emergencies a = some em) (hun : em.is_unlocked = true) :
    ∃ em1, (op.run s).emergencies a = some em1 ∧ em1.is_unlocked = true := by
  cases op
  case opDeclareEmergency e t0 =>
    simp only [Op.run, Op.apply]
    unfold declare_emergency
    cases hx : s.emergencies t0 with
    | some y => exact ⟨em, hem, hun⟩
    | none =>
      have hat : a ≠ t0 := by
        intro h
        rw [h, hx] at hem
        exact Option.noConfusion hem
      refine ⟨em, ?_, hun⟩
      rw [commit_ok, Storage.setEmergency_emergencies, if_neg hat]
      exact hem
  case opWitnessVoteMedical e w0 t0 =>
    simp only [Op.run, Op.apply]
    unfold witness_vote_medical
    repeat' split
    all_goals try exact ⟨em, hem, hun⟩
    all_goals rename s.emergencies t0 = some _ => hsome
    all_goals rw [commit_ok, Storage.setEmergency_emergencies]
    all_goals by_cases hat : a = t0
    · subst hat
      rw [hem] at hsome
      injection hsome with hsome
      subst hsome
      exact ⟨_, by rw [if_pos rfl], rfl⟩
    · exact ⟨em, by rw [if_neg hat]; exact hem, hun⟩
    · subst hat
      rw [hem] at hsome
      injection hsome with hsome
      subst hsome
      exact ⟨_, by rw [if_pos rfl], by simpa using hun⟩
    · exact ⟨em, by rw [if_neg hat]; exact hem, hun⟩
  case opCreateVault e u0 h0 =>
    rw [run_emergencies_frame (Op.opCreateVault e u0 h0) s (by simp) (by simp)]
    exact ⟨em, hem, hun⟩
  case opPingHeartbeat e u0 =>
    rw [run_emergencies_frame (Op.opPingHeartbeat e u0) s (by simp) (by simp)]
    exact ⟨em, hem, hun⟩
  case opClaimLegacy e t0 =>
    rw [run_emergencies_frame (Op.opClaimLegacy e t0) s (by simp) (by simp)]
    exact ⟨em, hem, hun⟩
  case opAssignWitnesses e u0 ws0 =>
    rw [run_emergencies_frame (Op.opAssignWitnesses e u0 ws0) s (by simp) (by simp)]
    exact ⟨em, hem, hun⟩
  case opPanicButton e w0 t0 =>
    rw [run_emergencies_frame (Op.opPanicButton e w0 t0) s (by simp) (by simp)]
    exact ⟨em, hem, hun⟩
  case opStake e u0 =>
    rw [run_emergencies_frame (Op.opStake e u0) s (by simp) (by simp)]
    exact ⟨em, hem, hun⟩
  case opVouch e v0 t0 =>
    rw [run_emergencies_frame (Op.opVouch e v0 t0) s (by simp) (by simp)]
    exact ⟨em, hem, hun⟩
  case opGetTrust e u0 =>
    rw [run_emergencies_frame (Op.opGetTrust e u0) s (by simp) (by simp)]
    exact ⟨em, hem, hun⟩

/-- C5: is_unlocked is a monotone latch: the vote that brings
votes_collected to 3 or more stores is_unlocked = true, and once an
emergency is unlocked no operation in scope ever resets the flag. -/
theorem medical_unlock_monotone :
    (∀ (env : Env) (w t : Address) (s : Storage) (circ : List Address) (em : MedicalEmergency),
      require_auth env w = true → s.witnesses t = some circ → circ.contains w = true →
      s.emergencies t = some em → 3 ≤ em.votes_collected + 1 → em.votes_collected + 1 < U32_MOD →
      witness_vote_medical env w t s =
        .ok (s.setEmergency t
          { em with votes_collected := em.votes_collected + 1, is_unlocked := true })) ∧
    (∀ (op : Op) (s : Storage) (a : Address) (em : MedicalEmergency),
      s.emergencies a = some em → em.is_unlocked = true →
      ∃ em1, (op.run s).emergencies a = some em1 ∧ em1.is_unlocked = true) := by
  constructor
  · intro env w t s circ em ha hc hm he h3 hlt
    rw [witness_vote_medical_eval env w t s circ em ha hc hm he hlt, if_pos h3]
  · exact fun op s a em hem hun => unlocked_latch_run op s a em hem hun

/-- Witness for C5 at concrete inputs: a third vote on an emergency
with 2 votes, and a ping_heartbeat over an unlocked emergency. -/
theorem medical_unlock_monotone_witness :
    witness_vote_medical ⟨0, [8]⟩ 8 1 medStore2 =
      .ok (medStore2.setEmergency 1 { target_user := 1, votes_collected := 3, is_unlocked := true }) ∧
    ∃ em1, ((Op.opPingHeartbeat ⟨5, [1]⟩ 1).run medStoreUnlocked).emergencies 1 = some em1 ∧
      em1.is_unlocked = true :=
  ⟨medical_unlock_monotone.1 ⟨0, [8]⟩ 8 1 medStore2 [7, 8, 9] ⟨1, 2, false⟩ rfl rfl rfl rfl
      (by norm_num) (by norm_num [U32_MOD]),
   medical_unlock_monotone.2 (Op.opPingHeartbeat ⟨5, [1]⟩ 1) medStoreUnlocked 1 ⟨1, 3, true⟩ rfl rfl⟩

/-! ### Trust score cap -/

theorem merchantInv_run (op : Op) (s : Storage) (h : MerchantInv s) : MerchantInv (op.run s) := by
  intro a m hm
  cases op
  case opStake e u0 =>
    simp only [Op.run, Op.apply] at hm
    unfold stake at hm
    simp only [] at hm
    repeat' split at hm
    · exact h a m hm
    · exact h a m hm
    · exact h a m hm
    · rename ¬(Merchant.bond_staked _ = true) => hbond
      rename checkedAddU32 _ 10 = Except.ok _ => hadd
      rw [commit_ok, Storage.setMerchant_merchants] at hm
      split at hm
      · injection hm with hm
        subst hm
        cases hsm : s.merchants u0 with
        | some m0 =>
          rw [hsm] at hbond
          simp at hbond
          simp [(h u0 m0 hsm).2] at hbond
        | none =>
          rw [hsm] at hadd
          simp [checkedAddU32, defaultMerchant, U32_MOD] at hadd
          constructor
          · simp
            omega
          · rfl
      · exact h a m hm
  case opVouch e v0 t0 =>
    simp only [Op.run, Op.apply] at hm
    unfold vouch at hm
    repeat' split at hm
    · exact h a m hm
    · exact h a m hm
    · exact h a m hm
    · rename s.merchants t0 = some _ => hsm
      rename Merchant.trust_score _ < 100 => hlt100
      rename checkedAddU32 _ 1 = Except.ok _ => hadd
      rw [commit_ok, Storage.setMerchant_merchants] at hm
      unfold checkedAddU32 at hadd
      split at hadd
      · injection hadd with hadd
        split at hm
        · injection hm with hm
          subst hm
          constructor
          · simp
            omega
          · simpa using (h t0 _ hsm).2
        · exact h a m hm
      · exact Except.noConfusion hadd
    · rename s.merchants t0 = some _ => hsm
      rw [commit_ok, Storage.setMerchant_merchants] at hm
      split at hm
      · injection hm with hm
        subst hm
        exact h t0 _ hsm
      · exact h a m hm
  case opCreateVault e u0 h0 =>
    rw [run_merchants_frame (Op.opCreateVault e u0 h0) s (by simp) (by simp)] at hm
    exact h a m hm
  case opPingHeartbeat e u0 =>
    rw [run_merchants_frame (Op.opPingHeartbeat e u0) s (by simp) (by simp)] at hm
    exact h a m hm
  case opClaimLegacy e t0 =>
    rw [run_merchants_frame (Op.opClaimLegacy e t0) s (by simp) (by simp)] at hm
    exact h a m hm
  case opAssignWitnesses e u0 ws0 =>
    rw [run_merchants_frame (Op.opAssignWitnesses e u0 ws0) s (by simp) (by simp)] at hm
    exact h a m hm
  case opDeclareEmergency e t0 =>
    rw [run_merchants_frame (Op.opDeclareEmergency e t0) s (by simp) (by simp)] at hm
    exact h a m hm
  case opWitnessVoteMedical e w0 t0 =>
    rw [run_merchants_frame (Op.opWitnessVoteMedical e w0 t0) s (by simp) (by simp)] at hm
    exact h a m hm
  case opPanicButton e w0 t0 =>
    rw [run_merchants_frame (Op.opPanicButton e w0 t0) s (by simp) (by simp)] at hm
    exact h a m hm
  case opGetTrust e u0 =>
    rw [run_merchants_frame (Op.opGetTrust e u0) s (by simp) (by simp)] at hm
    exact h a m hm

theorem merchantInv_runOps (ops : List Op) (s : Storage) (h : MerchantInv s) :
    MerchantInv (runOps ops s) := by
  induction ops generalizing s with
  | nil => exact h
  | cons op rest ih => exact ih (op.run s) (merchantInv_run op s h)

/-- C6: under any sequence of stake, vouch and get_trust operations
from the empty store, every stored trust_score stays at most 100 and
get_trust never returns more than 100. -/
theorem trust_score_capped (ops : List Op) (env : Env) (a : Address)
    (hops : ∀ op ∈ ops, TrustOp op = true) :
    get_trust env a (runOps ops Storage.init) ≤ 100 ∧
    (∀ m, (runOps ops Storage.init).merchants a = some m → m.trust_score ≤ 100) := by
  have hinv : MerchantInv (runOps ops Storage.init) :=
    merchantInv_runOps ops Storage.init (fun x m hm => Option.noConfusion hm)
  constructor
  · unfold get_trust
    cases hm : (runOps ops Storage.init).merchants a with
    | none => simp [hm, defaultMerchant]
    | some m => simpa [hm] using (hinv a m hm).1
  · intro m hm
    exact (hinv a m hm).1

/-- Witness for C6 at a concrete input: stake by 1, vouch from 2, then
a read. -/
theorem trust_score_capped_witness :
    get_trust ⟨0, [1, 2]⟩ 1 (runOps [Op.opStake ⟨0, [1, 2]⟩ 1, Op.opVouch ⟨1, [1, 2]⟩ 2 1,
        Op.opGetTrust ⟨2, [1, 2]⟩ 1] Storage.init) ≤ 100 ∧
    (∀ m, (runOps [Op.opStake ⟨0, [1, 2]⟩ 1, Op.opVouch ⟨1, [1, 2]⟩ 2 1,
        Op.opGetTrust ⟨2, [1, 2]⟩ 1] Storage.init).merchants 1 = some m → m.trust_score ≤ 100) :=
  trust_score_capped [Op.opStake ⟨0, [1, 2]⟩ 1, Op.opVouch ⟨1, [1, 2]⟩ 2 1,
    Op.opGetTrust ⟨2, [1, 2]⟩ 1] ⟨0, [1, 2]⟩ 1 (by decide)
